import Mathlib

/-!
Verification of the client-side authentication-state subsystem of the
angular-realworld-example-app repository: the UserService (login,
register, logout, getCurrentUser, update, setAuth, purgeAuth and its two
reactive streams), the JwtService token store over
localStorage["jwtToken"], the initAuth startup initializer, the token and
error HTTP interceptors, the route guards, and the favorite/follow toggle
controls.

The embedding is a shallow one: the mutable pieces (the BehaviorSubject
holding the current user, the localStorage entry) become an explicit
state record, each service method becomes a state-transition function on
that record, and the RxJS pipelines over the subject become functions on
the list of values the subject has emitted.  JavaScript object identity,
which the default comparator of distinctUntilChanged observes through
===, is modelled by tagging every object pushed into the subject with a
fresh numeric reference id.
-/

namespace Conduit

/-- Content of a User payload as the server returns it
(src/src/app/core/user.model imported by the UserService).  The token
field holds the bearer token; a response payload that carries no fresh
token is modelled by the empty string. -/
structure User where
  username : String
  email : String
  bio : String
  image : String
  token : String
  deriving DecidableEq, Repr

/-- Error body of a non-2xx RealWorld API response: a map from field name
to a list of messages, shape errors: field -> messages. -/
structure ErrorBody where
  errors : List (String × List String)
  deriving DecidableEq, Repr

/-- Raw HTTP failure as Angular hands it to the interceptor chain: the
status code plus the parsed response body in the error field. -/
structure HttpErrorResponse where
  status : Nat
  error : ErrorBody
  deriving DecidableEq, Repr

/-- Outcome of an HTTP call before the response error interceptor runs. -/
inductive HttpResult (α : Type) where
  | ok (body : α)
  | httpError (e : HttpErrorResponse)
  deriving DecidableEq, Repr

/-- errorInterceptor (src/src/app/core/models/errors.model.ts, line 663):
catchError((err) => throwError(() => err.error)) — a failed response is
delivered to the caller as a rejection carrying the API body err.error
verbatim; successful responses pass through untouched. -/
def errorInterceptor {α : Type} : HttpResult α → Except ErrorBody α
  | .ok body => .ok body
  | .httpError e => .error e.error

/-- A JavaScript object holding a User payload.  refId models the object
reference: every object parsed from an HTTP response (and hence every
argument ever passed to currentUserSubject.next) is a fresh allocation,
so distinct pushes carry distinct refIds even when their content is
equal. -/
structure RefUser where
  refId : Nat
  data : User
  deriving DecidableEq, Repr

/-- One value held or emitted by the currentUserSubject
BehaviorSubject<User | null>: a user object or null. -/
abbrev Emission := Option RefUser

/-- Strict equality === as used by the default comparator of RxJS
distinctUntilChanged: null === null is true, and two objects are ===
exactly when they are the same reference. -/
def jsEq : Emission → Emission → Bool
  | none, none => true
  | some a, some b => a.refId == b.refId
  | _, _ => false

/-- Semantic equality of two emissions: same identity content, ignoring
which object reference carries it. -/
def semEq : Emission → Emission → Bool
  | none, none => true
  | some a, some b => a.data == b.data
  | _, _ => false

/-- Combined state of the UserService (src/unnamed/part_002) and the
JwtService-managed storage entry
(src/src/app/core/auth/services/jwt.service.ts).

jwtToken is the localStorage["jwtToken"] entry (none when absent).
subjectHistory records every value the private currentUserSubject has
held so far, oldest first; a BehaviorSubject starts out holding its
constructor argument null.  nextRef is the supply of fresh object
references for values pushed into the subject. -/
structure AppState where
  jwtToken : Option String
  subjectHistory : List Emission
  nextRef : Nat
  deriving DecidableEq, Repr

/-- Freshly constructed service state: currentUserSubject = new
BehaviorSubject<User | null>(null), with whatever token string
localStorage still holds from an earlier browser session. -/
def initialState (stored : Option String) : AppState :=
  { jwtToken := stored, subjectHistory := [none], nextRef := 0 }

/-- JwtService.getToken: returns window.localStorage["jwtToken"], which
is undefined (none) when the entry is absent. -/
def getToken (s : AppState) : Option String :=
  s.jwtToken

/-- JwtService.saveToken: window.localStorage["jwtToken"] = token,
overwriting unconditionally. -/
def saveToken (s : AppState) (token : String) : AppState :=
  { s with jwtToken := some token }

/-- JwtService.destroyToken: window.localStorage.removeItem("jwtToken"). -/
def destroyToken (s : AppState) : AppState :=
  { s with jwtToken := none }

/-- currentUserSubject.next(user) with a freshly parsed — hence freshly
referenced — user object. -/
def nextUser (s : AppState) (u : User) : AppState :=
  { s with
    subjectHistory := s.subjectHistory ++ [some ⟨s.nextRef, u⟩],
    nextRef := s.nextRef + 1 }

/-- currentUserSubject.next(null). -/
def nextNull (s : AppState) : AppState :=
  { s with subjectHistory := s.subjectHistory ++ [none] }

/-- Current value of the BehaviorSubject: the latest value pushed. -/
def currentValue (s : AppState) : Emission :=
  s.subjectHistory.getLastD none

/-- Content of the currently cached user, if any. -/
def currentUserData (s : AppState) : Option User :=
  (currentValue s).map RefUser.data

/-- UserService.setAuth (part_002, lines 210-213): save the token carried
by the user object to storage and push the user into the subject — both
in the same synchronous step. -/
def setAuth (s : AppState) (u : User) : AppState :=
  nextUser (saveToken s u.token) u

/-- UserService.purgeAuth (part_002, lines 229-232): destroy the stored
token and push null — both in the same synchronous step. -/
def purgeAuth (s : AppState) : AppState :=
  nextNull (destroyToken s)

/-- UserService.login (part_002, lines 94-101): POST /users/login through
the error interceptor, with tap(({user}) => setAuth(user)) on the success
channel only; a rejection passes through with no side effect. -/
def login (s : AppState) (resp : HttpResult User) :
    AppState × Except ErrorBody User :=
  match errorInterceptor resp with
  | .ok u => (setAuth s u, .ok u)
  | .error e => (s, .error e)

/-- UserService.register (part_002, lines 117-125): POST /users, same
tap(setAuth) pattern as login. -/
def register (s : AppState) (resp : HttpResult User) :
    AppState × Except ErrorBody User :=
  match errorInterceptor resp with
  | .ok u => (setAuth s u, .ok u)
  | .error e => (s, .error e)

/-- UserService.logout (part_002, lines 138-141): purgeAuth, then
navigate to the home route; no server round trip. -/
def logout (s : AppState) : AppState × String :=
  (purgeAuth s, "/")

/-- UserService.getCurrentUser state effect (part_002, lines 162-170):
GET /user with tap next => setAuth, error => purgeAuth; the rejection
still reaches the subscriber after the purge. -/
def getCurrentUser (s : AppState) (resp : HttpResult User) :
    AppState × Except ErrorBody User :=
  match errorInterceptor resp with
  | .ok u => (setAuth s u, .ok u)
  | .error e => (purgeAuth s, .error e)

/-- UserService.update (part_002, lines 188-194): PUT /user with
tap(({user}) => currentUserSubject.next(user)) on success — the subject
receives the full response payload, and the JwtService is not touched. -/
def update (s : AppState) (resp : HttpResult User) :
    AppState × Except ErrorBody User :=
  match errorInterceptor resp with
  | .ok u => (nextUser s u, .ok u)
  | .error e => (s, .error e)

/-- Tail of distinctUntilChanged: prev is the value most recently let
through; a new value equal (under eq) to prev is dropped, otherwise it is
emitted and becomes the new comparison point. -/
def distinctFrom {α : Type} (eq : α → α → Bool) (prev : α) :
    List α → List α
  | [] => []
  | x :: xs => if eq prev x then distinctFrom eq prev xs else x :: distinctFrom eq x xs

/-- Emission sequence a subscriber of source.pipe(distinctUntilChanged(eq))
receives, given the emission sequence of the source: the first value
always passes, later values pass when not eq-equal to the last one let
through. -/
def distinctUntilChangedBy {α : Type} (eq : α → α → Bool) :
    List α → List α
  | [] => []
  | x :: xs => x :: distinctFrom eq x xs

/-- public currentUser = currentUserSubject.asObservable()
.pipe(distinctUntilChanged()) (part_002, lines 50-52).  The comparator of
the zero-argument distinctUntilChanged is ===, i.e. jsEq. -/
def currentUserEmissions (s : AppState) : List Emission :=
  distinctUntilChangedBy jsEq s.subjectHistory

/-- public isAuthenticated = this.currentUser.pipe(map((user) => !!user))
(part_002, line 61): a map over currentUser, one boolean per received
emission, in the same step. -/
def isAuthenticatedEmissions (s : AppState) : List Bool :=
  (currentUserEmissions s).map Option.isSome

/-- JavaScript truthiness of a value read from localStorage: undefined
(absent entry) is falsy, the empty string is falsy, every other string is
truthy. -/
def truthy : Option String → Bool
  | none => false
  | some t => !(t == "")

/-- An outgoing HTTP request, reduced to its header list. -/
structure HttpRequest where
  url : String
  headers : List (String × String)
  deriving DecidableEq, Repr

/-- tokenInterceptor (src/src/app/core/models/errors.model.ts, lines
270-326): token = inject(JwtService).getToken(); the request is cloned
with setHeaders spreading (token ? Authorization: Token token : nothing),
so a header is attached exactly when the stored value is truthy. -/
def tokenInterceptor (token : Option String) (req : HttpRequest) : HttpRequest :=
  if truthy token then
    { req with
      headers := req.headers ++ [("Authorization", "Token " ++ token.getD "")] }
  else req

/-- Settlement of the observable an APP_INITIALIZER factory returns:
Angular waits for it, and an errored observable rejects the bootstrap. -/
inductive InitResult where
  | completed
  | errored (e : ErrorBody)
  deriving DecidableEq, Repr

/-- initAuth factory (src/src/app/app.config.ts, line 197):
() => (jwtService.getToken() ? userService.getCurrentUser() : EMPTY).
With a truthy stored token the initializer is the getCurrentUser
observable itself — its tap side effects run and, there being no
catchError, an error settles the initializer as errored; with no (or an
empty) stored token EMPTY completes immediately and getCurrentUser is
never invoked. -/
def initAuth (s : AppState) (resp : HttpResult User) : AppState × InitResult :=
  if truthy (getToken s) then
    match getCurrentUser s resp with
    | (s2, .ok _) => (s2, .completed)
    | (s2, .error e) => (s2, .errored e)
  else (s, .completed)

/-- First value a brand-new subscriber of isAuthenticated receives: the
BehaviorSubject synchronously replays its current value, a fresh
distinctUntilChanged has no previous value so it passes through, and
map((user) => !!user) turns it into a boolean. -/
def isAuthenticatedFirstValue (s : AppState) : Bool :=
  (currentValue s).isSome

/-- canActivate guard of the login and register routes
(src/src/app/app.config.ts, line 1093):
() => inject(UserService).isAuthenticated.pipe(map((isAuth) => !isAuth));
the router resolves the guard with the first emitted value. -/
def guestOnlyGuard (s : AppState) : Bool :=
  !(isAuthenticatedFirstValue s)

/-- canActivate guard of the settings and editor routes
(src/src/app/app.config.ts, line 1174):
() => inject(UserService).isAuthenticated; the router resolves the guard
with the first emitted value. -/
def authRequiredGuard (s : AppState) : Bool :=
  isAuthenticatedFirstValue s

/-- API mutation a toggle control can issue. -/
inductive ApiCall where
  | favorite (slug : String)
  | unfavorite (slug : String)
  | follow (username : String)
  | unfollow (username : String)
  deriving DecidableEq, Repr

/-- View-model state of the favorite button
(src/src/app/features/article/components/article-list.component.ts). -/
structure FavoriteControl where
  isSubmitting : Bool
  favorited : Bool
  slug : String
  deriving DecidableEq, Repr

/-- View-model state of the follow button
(src/src/app/features/profile/components/follow-button.component.ts). -/
structure FollowControl where
  isSubmitting : Bool
  following : Bool
  username : String
  deriving DecidableEq, Repr

/-- Observable outcome of one activation of the favorite control: its
view-model state afterwards, whether navigation was triggered, which API
calls were issued, and the value emitted to the parent (if any). -/
structure FavoriteOutcome where
  control : FavoriteControl
  navigatedTo : Option String
  apiCalls : List ApiCall
  toggled : Option Bool
  deriving DecidableEq, Repr

/-- Observable outcome of one activation of the follow control: emitted
records whether toggle.emit fired with the updated profile. -/
structure FollowOutcome where
  control : FollowControl
  navigatedTo : Option String
  apiCalls : List ApiCall
  emitted : Bool
  deriving DecidableEq, Repr

/-- toggleFavorite (article-list.component.ts, lines 1196-1368):
isSubmitting = true, then subscribe isAuthenticated piped through
switchMap.  When not authenticated: navigate to /register and return
EMPTY — EMPTY completes without next or error, and the subscriber only
resets isSubmitting in its next and error handlers, so the flag stays
set.  When authenticated: favorite or unfavorite by the current toggle
state; next resets the flag and emits !favorited; error resets the
flag. -/
def toggleFavorite (authenticated : Bool) (c : FavoriteControl)
    (resp : HttpResult Unit) : FavoriteOutcome :=
  let busy : FavoriteControl := { c with isSubmitting := true }
  if !authenticated then
    { control := busy, navigatedTo := some "/register", apiCalls := [],
      toggled := none }
  else
    let call := if !c.favorited then ApiCall.favorite c.slug else ApiCall.unfavorite c.slug
    match resp with
    | .ok _ =>
      { control := { busy with isSubmitting := false }, navigatedTo := none,
        apiCalls := [call], toggled := some (!c.favorited) }
    | .httpError _ =>
      { control := { busy with isSubmitting := false }, navigatedTo := none,
        apiCalls := [call], toggled := none }

/-- toggleFollowing (follow-button.component.ts, lines 424-610): same
shape as toggleFavorite, with the unauthenticated branch navigating to
/login and the authenticated branch issuing follow or unfollow; the EMPTY
branch likewise never resets isSubmitting. -/
def toggleFollowing (authenticated : Bool) (c : FollowControl)
    (resp : HttpResult Unit) : FollowOutcome :=
  let busy : FollowControl := { c with isSubmitting := true }
  if !authenticated then
    { control := busy, navigatedTo := some "/login", apiCalls := [],
      emitted := false }
  else
    let call := if !c.following then ApiCall.follow c.username else ApiCall.unfollow c.username
    match resp with
    | .ok _ =>
      { control := { busy with isSubmitting := false }, navigatedTo := none,
        apiCalls := [call], emitted := true }
    | .httpError _ =>
      { control := { busy with isSubmitting := false }, navigatedTo := none,
        apiCalls := [call], emitted := false }

/-- Number of subscriptions one invocation of getCurrentUser() makes to
its underlying cold GET /user source, as a function of how many
subscribers that single returned observable accumulates: the
shareReplay(1) attached to the instance subscribes the source once for
the first subscriber and replays the cached emission to every later
one. -/
def requestsIssued (subscribers : Nat) : Nat :=
  if subscribers = 0 then 0 else 1

/-- Total GET /user requests across several invocations of
getCurrentUser() (part_002, lines 162-170).  Each call of the method
builds a fresh pipeline http.get("/user").pipe(tap(...), shareReplay(1)),
so the sharing connector is scoped to that one returned observable and
different invocations share nothing; the argument lists, per invocation,
how many subscribers that invocation's observable got. -/
def totalRequests (subscriberCounts : List Nat) : Nat :=
  (subscriberCounts.map requestsIssued).sum

/-- Value delivered to subscriber number i of one getCurrentUser()
invocation: shareReplay(1) hands every subscriber of the instance the
same shared (or replayed) settlement. -/
def replayedResult (result : HttpResult User) (_i : Nat) : HttpResult User :=
  result

/-- One imperative operation against the UserService, carrying the
server's response where the operation performs a remote call. -/
inductive Op where
  | login (resp : HttpResult User)
  | register (resp : HttpResult User)
  | logout
  | getCurrentUser (resp : HttpResult User)
  | update (resp : HttpResult User)
  deriving Repr

/-- State transition of one operation (the caller-facing result value is
dropped). -/
def step (s : AppState) : Op → AppState
  | .login r => (login s r).1
  | .register r => (register s r).1
  | .logout => (logout s).1
  | .getCurrentUser r => (getCurrentUser s r).1
  | .update r => (update s r).1

/-- Run a sequence of operations from a starting state. -/
def run (s : AppState) : List Op → AppState
  | [] => s
  | op :: ops => run (step s op) ops

/-- Concrete user as in the startup restoration scenario of the
specification. -/
def jake : User :=
  { username := "jake", email := "jake@x.com", bio := "", image := "",
    token := "abc" }

/-- Profile-update response payload whose token field carries no fresh
token. -/
def jakeNoToken : User :=
  { username := "jake", email := "jake@x.com", bio := "updated bio",
    image := "", token := "" }

/-- Session state of a logged-in jake: the state right after a successful
login from a fresh start. -/
def c1state : AppState :=
  setAuth (initialState none) jake

/-- Session state whose subject has received two successive user objects
with identical content: a successful startup getCurrentUser followed by a
profile update whose response carries the same user data again. -/
def c7state : AppState :=
  run (initialState (some "abc")) [Op.getCurrentUser (.ok jake), Op.update (.ok jake)]

/-- Favorite control at rest: not busy, article not yet favorited. -/
def idleFavorite : FavoriteControl :=
  { isSubmitting := false, favorited := false, slug := "how-to-train-your-dragon" }

/-- List.getLastD of a list with an element appended is that element. -/
lemma getLastD_concat {α : Type} (l : List α) (x d : α) :
    (l ++ [x]).getLastD d = x := by
  induction l generalizing d with
  | nil => rfl
  | cons a as ih =>
    rw [List.cons_append, List.getLastD_cons]
    exact ih a

/-- List.getLastD commutes with List.map when the default is mapped
too. -/
lemma map_getLastD {α β : Type} (f : α → β) (l : List α) (d : α) :
    (l.map f).getLastD (f d) = f (l.getLastD d) := by
  induction l generalizing d with
  | nil => rfl
  | cons a as ih =>
    rw [List.map_cons, List.getLastD_cons, List.getLastD_cons]
    exact ih a

/-- Dropping eq-duplicates never changes the last emission, as seen
through any function that eq-equal values agree on. -/
lemma distinctFrom_getLastD {α β : Type} (eq : α → α → Bool) (f : α → β)
    (heq : ∀ a b, eq a b = true → f a = f b) :
    ∀ (l : List α) (prev : α),
      f ((distinctFrom eq prev l).getLastD prev) = f (l.getLastD prev) := by
  intro l
  induction l with
  | nil => intro prev; rfl
  | cons y ys ih =>
    intro prev
    by_cases h : eq prev y = true
    · rw [distinctFrom, if_pos h, ih prev, List.getLastD_cons]
      cases ys with
      | nil => exact heq prev y h
      | cons z zs => rw [List.getLastD_cons, List.getLastD_cons]
    · rw [distinctFrom, if_neg h, List.getLastD_cons, List.getLastD_cons]
      exact ih y

/-- The distinctUntilChanged pipeline preserves the latest value of the
source, as seen through any function that eq-equal values agree on. -/
lemma distinctUntilChangedBy_getLastD {α β : Type} (eq : α → α → Bool) (f : α → β)
    (heq : ∀ a b, eq a b = true → f a = f b) (l : List α) (d : α) :
    f ((distinctUntilChangedBy eq l).getLastD d) = f (l.getLastD d) := by
  cases l with
  | nil => rfl
  | cons x xs =>
    rw [distinctUntilChangedBy, List.getLastD_cons, List.getLastD_cons]
    exact distinctFrom_getLastD eq f heq xs x

/-- Values identified by the strict-equality comparator are either both
null or both objects. -/
lemma jsEq_isSome (a b : Emission) (h : jsEq a b = true) :
    a.isSome = b.isSome := by
  cases a <;> cases b <;> simp_all [jsEq]

/-- C1 counterexample: with jake logged in (token "abc" cached and
stored), an update whose response payload carries no fresh token leaves
the Token Store entry alone, but the Session's cached User is the
response payload itself, whose token field is the empty string — the
cached User does not still carry a non-empty token. -/
theorem update_empty_token_clobbers_cached_user :
    (update c1state (.ok jakeNoToken)).1.jwtToken = some "abc"
      ∧ (currentUserData (update c1state (.ok jakeNoToken)).1).map User.token
        = some "" :=
  ⟨rfl, rfl⟩

/-- C1 amended: update never touches the Token Store (the stored entry is
preserved for every response), and on success it replaces the cached User
wholesale with the response payload — token field included, so only the
persisted Token Store retains the previously issued token when the
response carries none. -/
theorem update_preserves_store_and_replaces_user (s : AppState) (u : User)
    (r : HttpResult User) :
    (update s r).1.jwtToken = s.jwtToken
      ∧ currentUserData (update s (.ok u)).1 = some u := by
  constructor
  · cases r with
    | ok b => rfl
    | httpError e => rfl
  · simp [update, errorInterceptor, currentUserData, currentValue, nextUser,
      getLastD_concat]

/-- C2 counterexample: two independent call sites each invoking
getCurrentUser() once (each returned observable subscribed once) issue
two GET /user requests, not one — each invocation builds its own
shareReplay(1) pipeline. -/
theorem two_call_sites_issue_two_requests :
    totalRequests [1, 1] = 2 ∧ ¬ totalRequests [1, 1] = 1 := by
  decide

/-- C2 amended: the sharing is scoped to one invocation — however many
subscribers (at least one) the single observable returned by one
getCurrentUser() call accumulates, exactly one request is issued and all
of them observe the same replayed settlement; independent invocations
each issue their own request. -/
theorem shareReplay_scoped_to_one_invocation (n : Nat) (h : 0 < n)
    (r : HttpResult User) :
    requestsIssued n = 1
      ∧ ∀ i j : Nat, replayedResult r i = replayedResult r j := by
  refine ⟨?_, fun i j => rfl⟩
  rw [requestsIssued, if_neg (Nat.pos_iff_ne_zero.mp h)]

/-- Witness for the C2 amended theorem at two subscribers of one
invocation. -/
theorem shareReplay_scoped_to_one_invocation_witness :
    0 < 2
      ∧ (requestsIssued 2 = 1
        ∧ ∀ i j : Nat,
            replayedResult (HttpResult.ok jake) i
              = replayedResult (HttpResult.ok jake) j) :=
  ⟨by decide, shareReplay_scoped_to_one_invocation 2 (by decide) (HttpResult.ok jake)⟩

/-- C3: evaluation of the startup initializer on its three input shapes.
With a stored token and a server rejection, initAuth settles errored (the
getCurrentUser observable has no catchError), so the APP_INITIALIZER
rejects and application boot fails — contradicting the claim (and the
initializer's own documentation) that either outcome resolves
successfully.  The other two conjuncts show the outcomes the claim gets
right: token accepted resolves completed, and no token resolves completed
without invoking getCurrentUser. -/
theorem initAuth_rejected_token_fails_boot :
    initAuth (initialState (some "abc"))
        (.httpError ⟨401, ⟨[("token", ["is invalid"])]⟩⟩)
      = ({ jwtToken := none, subjectHistory := [none, none], nextRef := 0 },
          InitResult.errored ⟨[("token", ["is invalid"])]⟩)
      ∧ initAuth (initialState (some "abc")) (.ok jake)
        = ({ jwtToken := some "abc",
             subjectHistory := [none, some ⟨0, jake⟩], nextRef := 1 },
            InitResult.completed)
      ∧ initAuth (initialState none)
          (.httpError ⟨401, ⟨[("token", ["is invalid"])]⟩⟩)
        = (initialState none, InitResult.completed) :=
  ⟨rfl, rfl, rfl⟩

/-- C4: immediately after a successful login or register the Token Store
holds exactly the token of the response payload and the Session caches
that payload; immediately after logout or a failed getCurrentUser the
Token Store holds no token and the Session is null.  Each conjunct reads
both facts off the state produced by the one atomic transition function
(setAuth or purgeAuth), which writes the store and the subject in the
same synchronous step. -/
theorem auth_transitions_sync_store_and_session (s : AppState) (u : User)
    (e : HttpErrorResponse) :
    ((login s (.ok u)).1.jwtToken = some u.token
        ∧ currentUserData (login s (.ok u)).1 = some u)
      ∧ ((register s (.ok u)).1.jwtToken = some u.token
        ∧ currentUserData (register s (.ok u)).1 = some u)
      ∧ ((logout s).1.jwtToken = none ∧ currentUserData (logout s).1 = none)
      ∧ ((getCurrentUser s (.httpError e)).1.jwtToken = none
        ∧ currentUserData (getCurrentUser s (.httpError e)).1 = none) := by
  refine ⟨⟨rfl, ?_⟩, ⟨rfl, ?_⟩, ⟨rfl, ?_⟩, ⟨rfl, ?_⟩⟩ <;>
    simp [login, register, logout, getCurrentUser, errorInterceptor, setAuth,
      purgeAuth, nextUser, nextNull, saveToken, destroyToken, currentUserData,
      currentValue, getLastD_concat]

/-- C5: for every sequence of operations, the isAuthenticated stream is
the pointwise image of the currentUser stream under (user => !!user) —
one boolean per emission, produced in the same step — and its latest
value always equals (current user != null). -/
theorem isAuthenticated_tracks_currentUser (stored : Option String)
    (ops : List Op) :
    isAuthenticatedEmissions (run (initialState stored) ops)
        = (currentUserEmissions (run (initialState stored) ops)).map Option.isSome
      ∧ (isAuthenticatedEmissions (run (initialState stored) ops)).getLastD false
        = (currentUserData (run (initialState stored) ops)).isSome := by
  refine ⟨rfl, ?_⟩
  generalize run (initialState stored) ops = s
  calc (isAuthenticatedEmissions s).getLastD false
      = ((currentUserEmissions s).map Option.isSome).getLastD
          (Option.isSome (none : Emission)) := rfl
    _ = Option.isSome ((currentUserEmissions s).getLastD none) :=
        map_getLastD Option.isSome (currentUserEmissions s) none
    _ = Option.isSome (s.subjectHistory.getLastD none) :=
        distinctUntilChangedBy_getLastD jsEq Option.isSome jsEq_isSome
          s.subjectHistory none
    _ = (currentUserData s).isSome := by
        show Option.isSome (s.subjectHistory.getLastD none)
          = ((s.subjectHistory.getLastD none).map RefUser.data).isSome
        cases s.subjectHistory.getLastD none <;> rfl

/-- C6: a failing login, register or update leaves the whole state
untouched — subject history, hence Session, and Token Store alike — and
the caller's rejection value is the error body of the server response,
delivered verbatim by the error interceptor. -/
theorem failed_ops_leave_session_unchanged (s : AppState) (st : Nat)
    (e : ErrorBody) :
    login s (.httpError ⟨st, e⟩) = (s, Except.error e)
      ∧ register s (.httpError ⟨st, e⟩) = (s, Except.error e)
      ∧ update s (.httpError ⟨st, e⟩) = (s, Except.error e) :=
  ⟨rfl, rfl, rfl⟩

/-- C7: evaluation at the failing input.  After a startup getCurrentUser
and a profile update whose responses carry identical user content, the
subject has emitted two successive, semantically equal user objects —
and the currentUser pipeline delivers both to its observers, because the
zero-argument distinctUntilChanged compares with === and the two objects
are distinct references.  The second emission is not suppressed, contrary
to the claim and to the comment on the pipeline. -/
theorem equal_content_distinct_reference_not_suppressed :
    currentUserEmissions c7state = [none, some ⟨0, jake⟩, some ⟨1, jake⟩]
      ∧ semEq (some ⟨0, jake⟩) (some ⟨1, jake⟩) = true
      ∧ jsEq (some ⟨0, jake⟩) (some ⟨1, jake⟩) = false := by
  refine ⟨?_, by decide, by decide⟩
  decide

/-- C8: the guest-only guard on the login and register routes resolves to
the logical negation of the settled is-authenticated value, and the
auth-required guard on the settings and editor routes resolves to that
value directly — each from the single first value the fresh subscription
replays. -/
theorem guards_negate_and_pass_through (s : AppState) (b : Bool)
    (h : isAuthenticatedFirstValue s = b) :
    guestOnlyGuard s = !b ∧ authRequiredGuard s = b := by
  subst h
  exact ⟨rfl, rfl⟩

/-- Witness for C8 at the fresh anonymous state. -/
theorem guards_negate_and_pass_through_witness :
    isAuthenticatedFirstValue (initialState none) = false
      ∧ (guestOnlyGuard (initialState none) = !false
        ∧ authRequiredGuard (initialState none) = false) :=
  ⟨rfl, guards_negate_and_pass_through (initialState none) false rfl⟩

/-- C9 counterexample: an unauthenticated activation of the idle favorite
control redirects to registration and issues no API call, but the busy
flag is still set afterwards — the EMPTY branch completes without next or
error, and only those handlers reset isSubmitting, so the flag is not
cleared on that branch. -/
theorem unauthenticated_favorite_leaves_busy_set :
    (toggleFavorite false idleFavorite (.ok ())).control.isSubmitting = true
      ∧ (toggleFavorite false idleFavorite (.ok ())).apiCalls = []
      ∧ (toggleFavorite false idleFavorite (.ok ())).navigatedTo
        = some "/register" :=
  ⟨rfl, rfl, rfl⟩

/-- C9 amended: for every unauthenticated activation, the favorite
control redirects to registration and the follow control to login, no API
call is issued on either, and the busy flag remains set (not cleared) on
that branch, leaving the control disabled rather than re-activatable. -/
theorem unauthenticated_toggle_redirects_without_api_call
    (c : FavoriteControl) (d : FollowControl) (r : HttpResult Unit) :
    ((toggleFavorite false c r).apiCalls = []
        ∧ (toggleFavorite false c r).navigatedTo = some "/register"
        ∧ (toggleFavorite false c r).control.isSubmitting = true)
      ∧ ((toggleFollowing false d r).apiCalls = []
        ∧ (toggleFollowing false d r).navigatedTo = some "/login"
        ∧ (toggleFollowing false d r).control.isSubmitting = true) :=
  ⟨⟨rfl, rfl, rfl⟩, ⟨rfl, rfl, rfl⟩⟩

/-- C10: a stored empty-string token behaves exactly like an absent one
at every public interface — the token interceptor attaches no
Authorization header in either case, and the startup initializer resolves
completed without running getCurrentUser (the state is untouched for
every conceivable server response) in either case. -/
theorem empty_token_behaves_as_absent (req : HttpRequest)
    (resp : HttpResult User) (s : AppState) :
    tokenInterceptor (some "") req = req
      ∧ tokenInterceptor none req = req
      ∧ initAuth { s with jwtToken := some "" } resp
        = ({ s with jwtToken := some "" }, InitResult.completed)
      ∧ initAuth { s with jwtToken := none } resp
        = ({ s with jwtToken := none }, InitResult.completed) :=
  ⟨rfl, rfl, rfl, rfl⟩

end Conduit
